import Mathlib

/-!
Verification of the bootstrap/orchestration core of the ballistica engine
(`src/ballistica/ballistica.cc`): the build-integrity classifier
(`IsUnmodifiedBlessedBuild`), the monotonic clock tracker (`GetRealTime`),
the thread-affinity predicates, and a trace model of the bootstrap
orchestrator (`BallisticaMain`) and its fatal-error handling.
-/

namespace Ballistica

/-! ## Build-integrity classifier state

`IsUnmodifiedBlessedBuild` (ballistica.cc lines 302-334) reads the compile-time
flag `g_buildconfig.debug_build()`, the (possibly null) globals `g_app_globals`
and `g_platform`, and the embedded constant `kBlessingHash` (a possibly null
C string). We model the nullable pointers as `Option` and the nullable
C-string constant as `Option String`. -/

/-- The fields of `AppGlobals` that the classifier reads. -/
structure AppGlobalsBless where
  user_ran_commands : Bool
  calced_blessing_hash : String
deriving DecidableEq

/-- The field of `Platform` that the classifier reads. -/
structure PlatformBless where
  using_custom_app_python_dir : Bool
deriving DecidableEq

/-- The global state consulted by `IsUnmodifiedBlessedBuild`.  The embedded
constant `kBlessingHash` is carried as a field so the classifier can be
analysed both for this binary's value (`none`) and in general. -/
structure BlessState where
  debug_build : Bool
  app_globals : Option AppGlobalsBless
  platform : Option PlatformBless
  blessing_hash : Option String
deriving DecidableEq

/-- ballistica.cc line 34: `const char* kBlessingHash = nullptr;`. -/
def kBlessingHash : Option String := none

/-- ballistica.cc line 314: `g_app_globals && g_app_globals->user_ran_commands`. -/
def userRanCommands (s : BlessState) : Bool :=
  match s.app_globals with
  | some ag => ag.user_ran_commands
  | none => false

/-- ballistica.cc line 321: `g_platform && g_platform->using_custom_app_python_dir()`. -/
def usingCustomAppPythonDir (s : BlessState) : Bool :=
  match s.platform with
  | some p => p.using_custom_app_python_dir
  | none => false

/-- The runtime-computed blessing hash: `g_app_globals->calced_blessing_hash`
when the globals exist, empty (not yet computed) when they do not. -/
def calcedBlessingHash (s : BlessState) : String :=
  match s.app_globals with
  | some ag => ag.calced_blessing_hash
  | none => ""

/-- ballistica.cc lines 302-334, rule for rule.  The final return (lines
332-333) is `!(g_app_globals && !calced.empty() && calced != kBlessingHash)`. -/
def IsUnmodifiedBlessedBuild (s : BlessState) : Bool :=
  if s.debug_build then false
  else if userRanCommands s then false
  else if usingCustomAppPythonDir s then false
  else
    match s.blessing_hash with
    | none => false
    | some h =>
      !(match s.app_globals with
        | some ag =>
            decide (ag.calced_blessing_hash ≠ "")
              && decide (ag.calced_blessing_hash ≠ h)
        | none => false)

/-! ## Clock tracker

`GetRealTime` (ballistica.cc lines 185-209) reads the platform raw tick
counter and maintains `(last_real_time_ticks, real_time)` inside
`g_app_globals`.  `millisecs_t` is a signed integer type; we model it as
`Int`.  `GetRealTime` becomes a state transformer taking the raw tick
reading as input. -/

/-- The clock fields of `AppGlobals` (`millisecs_t` values). -/
structure ClockState where
  last_real_time_ticks : Int
  real_time : Int
deriving DecidableEq

/-- ballistica.cc lines 185-209: one `GetRealTime()` call observing raw ticks
`t`; returns the value returned to the caller and the updated clock state. -/
def GetRealTime (s : ClockState) (t : Int) : Int × ClockState :=
  if t ≠ s.last_real_time_ticks then
    let passed := t - s.last_real_time_ticks
    let passed := if passed < 0 then 0 else if passed > 250 then 250 else passed
    (s.real_time + passed,
      { last_real_time_ticks := t, real_time := s.real_time + passed })
  else
    (s.real_time, s)

/-- The values returned by successive `GetRealTime()` calls observing the
given sequence of raw-tick readings. -/
def runClock : ClockState → List Int → List Int
  | _, [] => []
  | s, t :: ts => (GetRealTime s t).1 :: runClock (GetRealTime s t).2 ts

/-! ## Thread-affinity predicates

ballistica.cc lines 235-267.  Each predicate is of the form
`pointer && pointer->thread()->IsCurrent()`; `InMainThread` compares
`std::this_thread::get_id()` against `g_app_globals->main_thread_id`.
We model each subsystem pointer as `Option` of the OS-thread identity its
module runs on, and `IsCurrent` as equality with the calling thread's
identity. -/

/-- The global state read by the thread-affinity predicates: the calling
thread's identity and, for each subsystem pointer, `none` when the global
pointer is still null or `some tid` for the thread the subsystem runs on. -/
structure AffState where
  current_thread : Nat
  game : Option Nat
  app_globals_main_thread_id : Option Nat
  graphics_server : Option Nat
  audio_server : Option Nat
  bg_dynamics_server : Option Nat
  media_server : Option Nat
  network_write_module : Option Nat
deriving DecidableEq

/-- `pointer && pointer->thread()->IsCurrent()`: false when the pointer is
null, otherwise true iff the calling thread is the subsystem's thread. -/
def threadIsCurrent (s : AffState) : Option Nat → Bool
  | none => false
  | some tid => s.current_thread == tid

/-- ballistica.cc lines 235-237. -/
def InGameThread (s : AffState) : Bool := threadIsCurrent s s.game

/-- ballistica.cc lines 239-242. -/
def InMainThread (s : AffState) : Bool :=
  threadIsCurrent s s.app_globals_main_thread_id

/-- ballistica.cc lines 244-246. -/
def InGraphicsThread (s : AffState) : Bool := threadIsCurrent s s.graphics_server

/-- ballistica.cc lines 248-250. -/
def InAudioThread (s : AffState) : Bool := threadIsCurrent s s.audio_server

/-- ballistica.cc lines 252-258: compiled to a constant `false` on headless
builds (`BA_HEADLESS_BUILD`); the compile-time flag is passed explicitly. -/
def InBGDynamicsThread (headless_build : Bool) (s : AffState) : Bool :=
  if headless_build then false else threadIsCurrent s s.bg_dynamics_server

/-- ballistica.cc lines 260-262. -/
def InMediaThread (s : AffState) : Bool := threadIsCurrent s s.media_server

/-- ballistica.cc lines 264-267. -/
def InNetworkWriteThread (s : AffState) : Bool :=
  threadIsCurrent s s.network_write_module

/-! ## Bootstrap orchestrator trace model

`BallisticaMain` (ballistica.cc lines 81-183) is modelled as a function from
an environment (the external inputs: the `BA_CRASH_TEST` variable, the
application's `UsesEventLoop()` flag, whether and where an exception escapes
the try block, the global state in effect when the catch block queries the
classifier, whether `FatalError::HandleFatalError` intercepts, and the
recorded return code) to the sequence of externally visible steps it performs
and its final outcome. -/

/-- The worker-thread identifiers created during phase 1 (thread.h enum). -/
inductive ThreadId where
  | kMain
  | kMedia
  | kAudio
  | kGame
  | kNetworkWrite
deriving DecidableEq

/-- The modules attached during phase 1. -/
inductive ModuleId where
  | Game
  | NetworkWriteModule
  | MediaServer
  | GraphicsServer
  | AudioServer
deriving DecidableEq

/-- One externally visible step of `BallisticaMain`. -/
inductive Step where
  | reportFatalError (message : String) (in_top_level_handler : Bool)
  | handleFatalError (exit_cleanly : Bool) (in_top_level_handler : Bool)
  | newAppGlobals
  | platformCreate
  | platformPostInit
  | newAccount
  | newUtils
  | sceneInit
  | newMainThread
  | platformCreateApp
  | newThread (id : ThreadId)
  | addModule (m : ModuleId) (target : ThreadId)
  | platformCreateAuxiliaryModules
  | setIsBootstrapped
  | gamePushApplyConfigCall
  | appOnBootstrapComplete
  | platformOnBootstrapComplete
  | mainThreadRunEventLoop
  | appPrimeEventPump
  | platformWillExitMain
deriving DecidableEq

/-- How the `BallisticaMain` invocation ends. -/
inductive Outcome where
  | returns (code : Int)
  | exitOne
  | abnormal (message : String)
  | fatalTermination
deriving DecidableEq

/-- The trace of steps performed, paired with the final outcome. -/
structure RunResult where
  trace : List Step
  outcome : Outcome
deriving DecidableEq

/-- External inputs determining one run of `BallisticaMain`. `throw_at = some
(j, msg)` means the j-th call of the try block (0-based) throws `msg` instead
of completing; `bless_at_catch` is the classifier state in effect when the
catch block runs; `handled` is what `FatalError::HandleFatalError` returns
there. -/
structure Env where
  ba_crash_test : Option String
  debug_build : Bool
  uses_event_loop : Bool
  throw_at : Option (Nat × String)
  bless_at_catch : BlessState
  handled : Bool
  return_value : Int

/-- The calls of the try block in program order (ballistica.cc lines 95-161),
after the crash-test check: phase 1 (provisioning), the `is_bootstrapped`
flip, phase 2 (activation), then the steady-state branch on
`g_app->UsesEventLoop()`. -/
def bootActions (uses_event_loop : Bool) : List Step :=
  [Step.newAppGlobals, Step.platformCreate, Step.platformPostInit,
   Step.newAccount, Step.newUtils, Step.sceneInit, Step.newMainThread,
   Step.platformCreateApp,
   Step.newThread ThreadId.kMedia, Step.newThread ThreadId.kAudio,
   Step.newThread ThreadId.kGame, Step.newThread ThreadId.kNetworkWrite,
   Step.addModule ModuleId.Game ThreadId.kGame,
   Step.addModule ModuleId.NetworkWriteModule ThreadId.kNetworkWrite,
   Step.addModule ModuleId.MediaServer ThreadId.kMedia,
   Step.addModule ModuleId.GraphicsServer ThreadId.kMain,
   Step.addModule ModuleId.AudioServer ThreadId.kAudio,
   Step.platformCreateAuxiliaryModules,
   Step.setIsBootstrapped,
   Step.gamePushApplyConfigCall,
   Step.appOnBootstrapComplete, Step.platformOnBootstrapComplete]
  ++ (if uses_event_loop then [Step.mainThreadRunEventLoop]
      else [Step.appPrimeEventPump])

/-- Run the try-block calls: either all complete, or the j-th throws and only
the earlier calls' steps appear. -/
def runActions (acts : List Step) (throw_at : Option (Nat × String)) :
    List Step × Option String :=
  match throw_at with
  | none => (acts, none)
  | some (j, msg) =>
    if j < acts.length then (acts.take j, some msg) else (acts, none)

/-- ballistica.cc lines 167 and 213: `exit_cleanly = !IsUnmodifiedBlessedBuild()`. -/
def fatalExitCleanly (s : BlessState) : Bool := !IsUnmodifiedBlessedBuild s

/-- ballistica.cc line 87: the fixed crash-test diagnostic message. -/
def kFatalErrorTestMessage : String := "Fatal-Error-Test"

/-- ballistica.cc lines 211-216: the free function `FatalError(message)` calls
`ReportFatalError(message, false)` then `HandleFatalError(exit_cleanly, false)`
with `exit_cleanly = !IsUnmodifiedBlessedBuild()`. -/
def FatalError (s : BlessState) (message : String) : List Step :=
  [Step.reportFatalError message false,
   Step.handleFatalError (fatalExitCleanly s) false]

/-- Modelled from the spec: `FatalError::HandleFatalError` (declared in
core/fatal_error.h, which is not part of this file) intercepts a fatal error
raised outside the top-level handler — `FatalError()` asserts `handled` — and
tears the process down with a non-zero exit code (spec sections 4.4, 7 and 8:
"setting the crash-test environment flag causes process exit with a non-zero
code"). -/
def fatalErrorOutcome : Outcome := Outcome.fatalTermination

/-- The classifier state at the crash-test hook: `g_app_globals` and
`g_platform` are still null and `kBlessingHash` is this binary's constant. -/
def crashBlessState (debug : Bool) : BlessState :=
  { debug_build := debug, app_globals := none, platform := none,
    blessing_hash := kBlessingHash }

/-- ballistica.cc lines 91-183: the try-block body after the crash-test check,
the catch block (lines 162-178), and the common tail (lines 181-182). -/
def mainAfterCrashCheck (env : Env) : RunResult :=
  match runActions (bootActions env.uses_event_loop) env.throw_at with
  | (tr, none) =>
    { trace := tr ++ [Step.platformWillExitMain],
      outcome := Outcome.returns env.return_value }
  | (tr, some msg) =>
    let error_msg := "Unhandled exception in BallisticaMain(): " ++ msg
    let exit_cleanly := fatalExitCleanly env.bless_at_catch
    let tr2 := tr ++ [Step.reportFatalError error_msg true,
                      Step.handleFatalError exit_cleanly true]
    if env.handled then
      { trace := tr2 ++ [Step.platformWillExitMain],
        outcome := Outcome.returns env.return_value }
    else if exit_cleanly then
      { trace := tr2, outcome := Outcome.exitOne }
    else
      { trace := tr2, outcome := Outcome.abnormal error_msg }

/-- ballistica.cc lines 81-183: `BallisticaMain`.  Lines 85-89 check
`getenv("BA_CRASH_TEST")` against the exact string `"1"` and raise
`FatalError("Fatal-Error-Test")` before any global is constructed. -/
def BallisticaMain (env : Env) : RunResult :=
  match env.ba_crash_test with
  | some s =>
    if s = "1" then
      { trace := FatalError (crashBlessState env.debug_build)
          kFatalErrorTestMessage,
        outcome := fatalErrorOutcome }
    else mainAfterCrashCheck env
  | none => mainAfterCrashCheck env

/-! ## Trace predicates -/

/-- The cross-thread message sends appearing in this core's trace (the
apply-config call pushed to the game thread, line 138). -/
def isCrossThreadMessage : Step → Bool
  | Step.gamePushApplyConfigCall => true
  | _ => false

/-- Steps that construct global state, a thread or a subsystem. -/
def isConstruction : Step → Bool
  | Step.newAppGlobals => true
  | Step.platformCreate => true
  | Step.platformPostInit => true
  | Step.newAccount => true
  | Step.newUtils => true
  | Step.sceneInit => true
  | Step.newMainThread => true
  | Step.platformCreateApp => true
  | Step.newThread _ => true
  | Step.addModule _ _ => true
  | Step.platformCreateAuxiliaryModules => true
  | _ => false

/-- Steps reporting a fatal error. -/
def isReportFatal : Step → Bool
  | Step.reportFatalError _ _ => true
  | _ => false

/-- The thread-creation and module-attachment steps of phase 1. -/
def creationSteps : List Step :=
  [Step.newMainThread,
   Step.newThread ThreadId.kMedia, Step.newThread ThreadId.kAudio,
   Step.newThread ThreadId.kGame, Step.newThread ThreadId.kNetworkWrite,
   Step.addModule ModuleId.Game ThreadId.kGame,
   Step.addModule ModuleId.NetworkWriteModule ThreadId.kNetworkWrite,
   Step.addModule ModuleId.MediaServer ThreadId.kMedia,
   Step.addModule ModuleId.GraphicsServer ThreadId.kMain,
   Step.addModule ModuleId.AudioServer ThreadId.kAudio,
   Step.platformCreateAuxiliaryModules]

/-- Index of the first occurrence of `e` (length of the list when absent). -/
def firstIdx (e : Step) : List Step → Nat
  | [] => 0
  | a :: rest => if a = e then 0 else firstIdx e rest + 1

/-! ## Theorems -/

/-- Adjacent-call relation for the clock: the next returned value is at least
the previous one and exceeds it by at most 250. -/
def clockStep (a b : Int) : Prop := a ≤ b ∧ b - a ≤ 250

instance : DecidableRel clockStep := fun a b => by
  unfold clockStep; infer_instance

theorem getRealTime_mono (s : ClockState) (t : Int) :
    s.real_time ≤ (GetRealTime s t).1 ∧ (GetRealTime s t).1 - s.real_time ≤ 250
      ∧ (GetRealTime s t).2.real_time = (GetRealTime s t).1 := by
  unfold GetRealTime
  split_ifs with h
  · simp
    split_ifs <;> omega
  · simp

theorem runClock_chain (ticks : List Int) :
    ∀ s : ClockState, List.Chain clockStep s.real_time (runClock s ticks) := by
  induction ticks with
  | nil => intro s; exact List.Chain.nil
  | cons t ts ih =>
    intro s
    have hm := getRealTime_mono s t
    refine List.Chain.cons ⟨hm.1, hm.2.1⟩ ?_
    have h := ih (GetRealTime s t).2
    rw [hm.2.2] at h
    exact h

theorem runClock_chain' (s : ClockState) (ticks : List Int) :
    List.Chain' clockStep (runClock s ticks) :=
  List.Chain'.tail (l := s.real_time :: runClock s ticks) (runClock_chain ticks s)

/-- C3: for every initial clock state and every sequence of raw-tick readings
delivered by the platform — including negative deltas and deltas above 250 —
the values returned by successive `GetRealTime()` calls are non-decreasing,
and each successive value exceeds the previous one by at most 250. -/
theorem C3_getRealTime_monotone (s : ClockState) (ticks : List Int) (i : Nat)
    (h : i + 1 < (runClock s ticks).length) :
    (runClock s ticks).get ⟨i, Nat.lt_of_succ_lt h⟩ ≤
        (runClock s ticks).get ⟨i + 1, h⟩ ∧
      (runClock s ticks).get ⟨i + 1, h⟩ -
        (runClock s ticks).get ⟨i, Nat.lt_of_succ_lt h⟩ ≤ 250 := by
  have hc := runClock_chain' s ticks
  rw [List.chain'_iff_get] at hc
  exact hc i (by omega)

theorem C3_getRealTime_monotone_witness :
    (runClock ⟨0, 0⟩ [0, 100, 99, 5000]).get ⟨2, by decide⟩ ≤
        (runClock ⟨0, 0⟩ [0, 100, 99, 5000]).get ⟨3, by decide⟩ ∧
      (runClock ⟨0, 0⟩ [0, 100, 99, 5000]).get ⟨3, by decide⟩ -
        (runClock ⟨0, 0⟩ [0, 100, 99, 5000]).get ⟨2, by decide⟩ ≤ 250 :=
  C3_getRealTime_monotone ⟨0, 0⟩ [0, 100, 99, 5000] 2 (by decide)

/-- C4: from the initial clock state (accumulator 0, last-observed raw ticks
0), four `GetRealTime()` calls observing raw ticks 0, 100, 99, 5000 return
exactly 0, 100, 100, 350: the negative delta is clamped to 0 and the
oversized delta to 250. -/
theorem C4_clock_example :
    runClock { last_real_time_ticks := 0, real_time := 0 } [0, 100, 99, 5000]
      = [0, 100, 100, 350] := by decide

/-- C2: `IsUnmodifiedBlessedBuild()` evaluates its rules in the fixed order
(debug build; developer commands run; custom scripting directory; no embedded
reference hash; hash comparison), each matching rule deciding the result, and
in the final rule it returns true iff the runtime-computed hash equals the
embedded reference hash or the runtime hash has not yet been computed
(empty). -/
theorem C2_classifier_rules (s : BlessState) :
    (s.debug_build = true → IsUnmodifiedBlessedBuild s = false) ∧
    (userRanCommands s = true → IsUnmodifiedBlessedBuild s = false) ∧
    (usingCustomAppPythonDir s = true → IsUnmodifiedBlessedBuild s = false) ∧
    (s.blessing_hash = none → IsUnmodifiedBlessedBuild s = false) ∧
    (∀ h, s.debug_build = false → userRanCommands s = false →
      usingCustomAppPythonDir s = false → s.blessing_hash = some h →
      (IsUnmodifiedBlessedBuild s = true ↔
        (calcedBlessingHash s = "" ∨ calcedBlessingHash s = h))) := by
  refine ⟨?_, ?_, ?_, ?_, ?_⟩
  · intro hd; simp [IsUnmodifiedBlessedBuild, hd]
  · intro hu; simp [IsUnmodifiedBlessedBuild, hu]
  · intro hc; simp [IsUnmodifiedBlessedBuild, hc]
  · intro hh; simp [IsUnmodifiedBlessedBuild, hh]
  · intro h hd hu hc hh
    cases hag : s.app_globals with
    | none => simp [IsUnmodifiedBlessedBuild, hd, hu, hc, hh, hag,
        calcedBlessingHash]
    | some ag =>
      by_cases h1 : ag.calced_blessing_hash = "" <;>
        by_cases h2 : ag.calced_blessing_hash = h <;>
          simp [IsUnmodifiedBlessedBuild, hd, hu, hc, hh, hag,
            calcedBlessingHash, h1, h2]

theorem C2_classifier_rules_witness :
    IsUnmodifiedBlessedBuild
        ⟨false, some ⟨false, "h"⟩, some ⟨false⟩, some "h"⟩ = true :=
  ((C2_classifier_rules ⟨false, some ⟨false, "h"⟩, some ⟨false⟩, some "h"⟩
    ).2.2.2.2 "h" rfl rfl rfl rfl).mpr (Or.inr rfl)

/-- C10: this binary embeds no reference blessing hash (`kBlessingHash` is
null), so `IsUnmodifiedBlessedBuild()` returns false for every global state,
and consequently every fatal-error path computes `exit_cleanly = true`. -/
theorem C10_never_blessed (s : BlessState)
    (hk : s.blessing_hash = kBlessingHash) :
    IsUnmodifiedBlessedBuild s = false ∧ fatalExitCleanly s = true := by
  rw [kBlessingHash] at hk
  have hf : IsUnmodifiedBlessedBuild s = false := by
    simp [IsUnmodifiedBlessedBuild, hk]
  exact ⟨hf, by simp [fatalExitCleanly, hf]⟩

theorem C10_never_blessed_witness :
    IsUnmodifiedBlessedBuild ⟨true, some ⟨true, "x"⟩, some ⟨true⟩, none⟩
        = false ∧
      fatalExitCleanly ⟨true, some ⟨true, "x"⟩, some ⟨true⟩, none⟩ = true :=
  C10_never_blessed ⟨true, some ⟨true, "x"⟩, some ⟨true⟩, none⟩ rfl

theorem threadIsCurrent_spec (s : AffState) (o : Option Nat) :
    (threadIsCurrent s o = true → o = some s.current_thread) ∧
    (o = none → threadIsCurrent s o = false) := by
  cases o with
  | none => simp [threadIsCurrent]
  | some tid =>
    refine ⟨fun ht => ?_, fun hn => by cases hn⟩
    have hv : s.current_thread = tid := by simpa [threadIsCurrent] using ht
    exact congrArg some hv.symm

/-- C8: each thread-affinity predicate returns true only when invoked from
its designated thread; while the corresponding global pointer (or global
state) is still null it returns false rather than failing; and
`InBGDynamicsThread` returns false unconditionally on headless builds. -/
theorem C8_thread_affinity (headless_build : Bool) (s : AffState) :
    (InGameThread s = true → s.game = some s.current_thread) ∧
    (s.game = none → InGameThread s = false) ∧
    (InMainThread s = true →
      s.app_globals_main_thread_id = some s.current_thread) ∧
    (s.app_globals_main_thread_id = none → InMainThread s = false) ∧
    (InGraphicsThread s = true → s.graphics_server = some s.current_thread) ∧
    (s.graphics_server = none → InGraphicsThread s = false) ∧
    (InAudioThread s = true → s.audio_server = some s.current_thread) ∧
    (s.audio_server = none → InAudioThread s = false) ∧
    (InMediaThread s = true → s.media_server = some s.current_thread) ∧
    (s.media_server = none → InMediaThread s = false) ∧
    (InNetworkWriteThread s = true →
      s.network_write_module = some s.current_thread) ∧
    (s.network_write_module = none → InNetworkWriteThread s = false) ∧
    (headless_build = false → InBGDynamicsThread headless_build s = true →
      s.bg_dynamics_server = some s.current_thread) ∧
    (headless_build = false → s.bg_dynamics_server = none →
      InBGDynamicsThread headless_build s = false) ∧
    (headless_build = true → InBGDynamicsThread headless_build s = false) := by
  refine ⟨(threadIsCurrent_spec s s.game).1, (threadIsCurrent_spec s s.game).2,
    (threadIsCurrent_spec s s.app_globals_main_thread_id).1,
    (threadIsCurrent_spec s s.app_globals_main_thread_id).2,
    (threadIsCurrent_spec s s.graphics_server).1,
    (threadIsCurrent_spec s s.graphics_server).2,
    (threadIsCurrent_spec s s.audio_server).1,
    (threadIsCurrent_spec s s.audio_server).2,
    (threadIsCurrent_spec s s.media_server).1,
    (threadIsCurrent_spec s s.media_server).2,
    (threadIsCurrent_spec s s.network_write_module).1,
    (threadIsCurrent_spec s s.network_write_module).2, ?_, ?_, ?_⟩
  · intro hh ht
    rw [InBGDynamicsThread, hh] at ht
    exact (threadIsCurrent_spec s s.bg_dynamics_server).1 (by simpa using ht)
  · intro hh hn
    rw [InBGDynamicsThread, hh]
    simpa using (threadIsCurrent_spec s s.bg_dynamics_server).2 hn
  · intro hh
    rw [InBGDynamicsThread, hh]
    rfl

theorem C8_thread_affinity_witness :
    InGameThread ⟨0, none, none, none, none, none, none, none⟩ = false ∧
      InBGDynamicsThread true ⟨0, none, none, none, none, none, none, none⟩
        = false :=
  ⟨(C8_thread_affinity true ⟨0, none, none, none, none, none, none, none⟩
      ).2.1 rfl,
   (C8_thread_affinity true ⟨0, none, none, none, none, none, none, none⟩
      ).2.2.2.2.2.2.2.2.2.2.2.2.2.2 rfl⟩

theorem ballisticaMain_eq_main (env : Env) (hc : env.ba_crash_test ≠ some "1") :
    BallisticaMain env = mainAfterCrashCheck env := by
  unfold BallisticaMain
  cases hct : env.ba_crash_test with
  | none => rfl
  | some s =>
    have hs : ¬ s = "1" := fun h => hc (by rw [hct, h])
    exact if_neg hs

theorem ballisticaMain_eq_crash (env : Env)
    (hc : env.ba_crash_test = some "1") :
    BallisticaMain env =
      { trace := FatalError (crashBlessState env.debug_build)
          kFatalErrorTestMessage,
        outcome := fatalErrorOutcome } := by
  unfold BallisticaMain
  rw [hc]
  exact if_pos rfl

theorem crashState_exit_cleanly (debug : Bool) :
    fatalExitCleanly (crashBlessState debug) = true := by
  cases debug <;> decide

/-- C5: if `BA_CRASH_TEST` is the exact string `"1"` at entry,
`BallisticaMain` raises exactly one fatal error, with the fixed message
`"Fatal-Error-Test"`, before any global state or subsystem is constructed,
and the process terminates with a non-zero code; for any other value (or when
the variable is unset) no fatal error is raised and bootstrap proceeds. -/
theorem C5_crash_test_hook (env : Env) :
    (env.ba_crash_test = some "1" →
      (BallisticaMain env).trace =
          [Step.reportFatalError kFatalErrorTestMessage false,
           Step.handleFatalError true false] ∧
        (BallisticaMain env).trace.countP (fun e => isReportFatal e) = 1 ∧
        (BallisticaMain env).trace.all (fun e => !isConstruction e) = true ∧
        (BallisticaMain env).outcome = fatalErrorOutcome) ∧
    (env.ba_crash_test ≠ some "1" → env.throw_at = none →
      (BallisticaMain env).trace.countP (fun e => isReportFatal e) = 0 ∧
        (BallisticaMain env).trace =
          bootActions env.uses_event_loop ++ [Step.platformWillExitMain]) := by
  constructor
  · intro hc
    rw [ballisticaMain_eq_crash env hc]
    refine ⟨?_, ?_, ?_, rfl⟩
    · show FatalError (crashBlessState env.debug_build) kFatalErrorTestMessage
        = _
      rw [FatalError, crashState_exit_cleanly]
    · cases env.debug_build <;> decide
    · cases env.debug_build <;> decide
  · intro hc hta
    rw [ballisticaMain_eq_main env hc]
    obtain ⟨ct, db, uel, ta, bac, hd, rv⟩ := env
    cases hta
    have htr : (mainAfterCrashCheck ⟨ct, db, uel, none, bac, hd, rv⟩).trace
        = bootActions uel ++ [Step.platformWillExitMain] := rfl
    rw [htr]
    exact ⟨by cases uel <;> decide, rfl⟩

theorem C5_crash_test_hook_witness :
    (BallisticaMain
        { ba_crash_test := some "1", debug_build := false,
          uses_event_loop := true, throw_at := none,
          bless_at_catch := ⟨false, none, none, none⟩, handled := true,
          return_value := 0 }).trace =
      [Step.reportFatalError kFatalErrorTestMessage false,
       Step.handleFatalError true false] :=
  ((C5_crash_test_hook
    { ba_crash_test := some "1", debug_build := false,
      uses_event_loop := true, throw_at := none,
      bless_at_catch := ⟨false, none, none, none⟩, handled := true,
      return_value := 0 }).1 rfl).1

/-- C7: in the steady-state phase exactly one of the two branches runs: when
`UsesEventLoop()` is true the main thread enters its blocking event loop and
`PrimeEventPump()` is never called; when it is false `PrimeEventPump()` is
called exactly once, the event loop is not entered, and the function returns
to the OS-driven loop. -/
theorem C7_steady_state_branch (env : Env)
    (hc : env.ba_crash_test ≠ some "1") (hta : env.throw_at = none) :
    (BallisticaMain env).trace.count Step.mainThreadRunEventLoop
        = (if env.uses_event_loop then 1 else 0) ∧
      (BallisticaMain env).trace.count Step.appPrimeEventPump
        = (if env.uses_event_loop then 0 else 1) ∧
      (BallisticaMain env).outcome = Outcome.returns env.return_value := by
  rw [ballisticaMain_eq_main env hc]
  obtain ⟨ct, db, uel, ta, bac, hd, rv⟩ := env
  cases hta
  have htr : (mainAfterCrashCheck ⟨ct, db, uel, none, bac, hd, rv⟩).trace
      = bootActions uel ++ [Step.platformWillExitMain] := rfl
  rw [htr]
  refine ⟨?_, ?_, rfl⟩ <;> cases uel <;> rfl

theorem C7_steady_state_branch_witness :
    (BallisticaMain
        { ba_crash_test := none, debug_build := false,
          uses_event_loop := false, throw_at := none,
          bless_at_catch := ⟨false, none, none, none⟩, handled := true,
          return_value := 0 }).trace.count Step.appPrimeEventPump = 1 :=
  (C7_steady_state_branch
    { ba_crash_test := none, debug_build := false,
      uses_event_loop := false, throw_at := none,
      bless_at_catch := ⟨false, none, none, none⟩, handled := true,
      return_value := 0 } (by decide) rfl).2.1

/-- C6: in the bootstrap step sequence of `BallisticaMain`, every phase-1
thread creation and module attachment (including the platform's auxiliary
modules) strictly precedes the `is_bootstrapped` flip, the flip strictly
precedes the first cross-thread message (the apply-config call pushed to the
game thread), and no cross-thread message is sent while `is_bootstrapped` is
still false. -/
theorem C6_bootstrap_order (env : Env)
    (hc : env.ba_crash_test ≠ some "1") (hta : env.throw_at = none) :
    (∀ e ∈ creationSteps,
        (BallisticaMain env).trace.count e = 1 ∧
        firstIdx e (BallisticaMain env).trace <
          firstIdx Step.setIsBootstrapped (BallisticaMain env).trace) ∧
      (BallisticaMain env).trace.count Step.setIsBootstrapped = 1 ∧
      (BallisticaMain env).trace.count Step.gamePushApplyConfigCall = 1 ∧
      firstIdx Step.setIsBootstrapped (BallisticaMain env).trace <
        firstIdx Step.gamePushApplyConfigCall (BallisticaMain env).trace ∧
      ((BallisticaMain env).trace.takeWhile
          (fun e => !(e == Step.setIsBootstrapped))).all
        (fun e => !isCrossThreadMessage e) = true := by
  rw [ballisticaMain_eq_main env hc]
  obtain ⟨ct, db, uel, ta, bac, hd, rv⟩ := env
  cases hta
  have htr : (mainAfterCrashCheck ⟨ct, db, uel, none, bac, hd, rv⟩).trace
      = bootActions uel ++ [Step.platformWillExitMain] := rfl
  rw [htr]
  cases uel <;> decide

theorem C6_bootstrap_order_witness :
    (BallisticaMain
        { ba_crash_test := none, debug_build := false, uses_event_loop := true,
          throw_at := none, bless_at_catch := ⟨false, none, none, none⟩,
          handled := true, return_value := 0 }).trace.count
        Step.setIsBootstrapped = 1 :=
  (C6_bootstrap_order
    { ba_crash_test := none, debug_build := false, uses_event_loop := true,
      throw_at := none, bless_at_catch := ⟨false, none, none, none⟩,
      handled := true, return_value := 0 } (by decide) rfl).2.1

/-- C9: whenever `BallisticaMain` returns — the bootstrap-and-run sequence
succeeded, or a caught failure was reported and the handle step intercepted —
the platform's `WillExitMain` notification is the final step before the
return, and the returned value is the Global State's recorded return code. -/
theorem C9_exit_protocol (env : Env) (code : Int)
    (h : (BallisticaMain env).outcome = Outcome.returns code) :
    code = env.return_value ∧
      ∃ pre, (BallisticaMain env).trace
        = pre ++ [Step.platformWillExitMain] := by
  by_cases hc : env.ba_crash_test = some "1"
  · rw [ballisticaMain_eq_crash env hc] at h
    exact absurd h (by simp [fatalErrorOutcome])
  · rw [ballisticaMain_eq_main env hc] at h ⊢
    obtain ⟨ct, db, uel, ta, bac, hd, rv⟩ := env
    cases ta with
    | none =>
      have h2 : Outcome.returns rv = Outcome.returns code := h
      exact ⟨(Outcome.returns.inj h2).symm, bootActions uel, rfl⟩
    | some p =>
      obtain ⟨j, msg⟩ := p
      by_cases hj : j < (bootActions uel).length
      · have hr : runActions (bootActions uel) (some (j, msg))
            = ((bootActions uel).take j, some msg) := by
          simp [runActions, hj]
        unfold mainAfterCrashCheck at h ⊢
        dsimp only at h ⊢
        rw [hr] at h ⊢
        dsimp only at h ⊢
        cases hd with
        | true =>
          have h2 : Outcome.returns rv = Outcome.returns code := h
          refine ⟨(Outcome.returns.inj h2).symm,
            (bootActions uel).take j ++
              [Step.reportFatalError
                ("Unhandled exception in BallisticaMain(): " ++ msg) true,
               Step.handleFatalError (fatalExitCleanly bac) true], rfl⟩
        | false =>
          cases hb : fatalExitCleanly bac with
          | true =>
            rw [hb] at h
            exact Outcome.noConfusion
              (show Outcome.exitOne = Outcome.returns code from h)
          | false =>
            rw [hb] at h
            exact Outcome.noConfusion
              (show Outcome.abnormal
                ("Unhandled exception in BallisticaMain(): " ++ msg)
                = Outcome.returns code from h)
      · have hr : runActions (bootActions uel) (some (j, msg))
            = (bootActions uel, none) := by
          simp [runActions, hj]
        unfold mainAfterCrashCheck at h ⊢
        dsimp only at h ⊢
        rw [hr] at h ⊢
        have h2 : Outcome.returns rv = Outcome.returns code := h
        exact ⟨(Outcome.returns.inj h2).symm, bootActions uel, rfl⟩

theorem C9_exit_protocol_witness :
    (7 : Int) =
        (Env.mk none false true none ⟨false, none, none, none⟩ true 7
          ).return_value ∧
      ∃ pre, (BallisticaMain
          (Env.mk none false true none ⟨false, none, none, none⟩ true 7)).trace
        = pre ++ [Step.platformWillExitMain] :=
  C9_exit_protocol
    (Env.mk none false true none ⟨false, none, none, none⟩ true 7) 7 rfl

/-- A hypothetically blessed classifier state: release build, no developer
commands, default scripting directory, embedded hash present and equal to the
runtime-computed hash. -/
def blessedCatchState : BlessState :=
  { debug_build := false,
    app_globals := some { user_ran_commands := false,
                          calced_blessing_hash := "h" },
    platform := some { using_custom_app_python_dir := false },
    blessing_hash := some "h" }

/-- A run in which the screen-creation phase (driven from the main-thread
event loop) throws, the handle step does not intercept, and the build is
blessed at the time the top-level boundary consults the classifier. -/
def envBlessedUnhandledThrow : Env :=
  { ba_crash_test := none, debug_build := false, uses_event_loop := true,
    throw_at := some (22, "screen-creation failure"),
    bless_at_catch := blessedCatchState, handled := false, return_value := 0 }

/-- C1 fails as the claim states it: in this concrete run the build is
blessed and the handle step does not intercept, yet the process does not exit
via `exit(1)` — it re-raises.  ballistica.cc line 167 computes
`exit_cleanly = !IsUnmodifiedBlessedBuild()`, the reverse polarity of the
claim. -/
theorem C1_counterexample :
    IsUnmodifiedBlessedBuild envBlessedUnhandledThrow.bless_at_catch = true ∧
      envBlessedUnhandledThrow.handled = false ∧
      (BallisticaMain envBlessedUnhandledThrow).outcome
        = Outcome.abnormal
          "Unhandled exception in BallisticaMain(): screen-creation failure" ∧
      ¬ (BallisticaMain envBlessedUnhandledThrow).outcome
        = Outcome.exitOne := by
  refine ⟨by decide, rfl, by decide, by decide⟩

/-- C1 amended: when a failure escapes to the top-level boundary (where it is
reported exactly once) and the handle step does not intercept, the exit
decision follows the Build-Integrity Classifier with the polarity reversed
from the claim: on a blessed build the clean exit is denied and the failure
is re-raised to terminate abnormally, and on a non-blessed build the process
exits cleanly via `exit(1)`. -/
theorem C1_exit_decision (env : Env) (j : Nat) (msg : String)
    (hc : env.ba_crash_test ≠ some "1")
    (hta : env.throw_at = some (j, msg))
    (hj : j < (bootActions env.uses_event_loop).length)
    (hh : env.handled = false) :
    (BallisticaMain env).outcome
        = (if IsUnmodifiedBlessedBuild env.bless_at_catch
            then Outcome.abnormal
              ("Unhandled exception in BallisticaMain(): " ++ msg)
            else Outcome.exitOne) ∧
      (BallisticaMain env).trace.countP (fun e => isReportFatal e) = 1 := by
  rw [ballisticaMain_eq_main env hc]
  obtain ⟨ct, db, uel, ta, bac, hd, rv⟩ := env
  cases hta
  cases hh
  dsimp only at hj ⊢
  have hr : runActions (bootActions uel) (some (j, msg))
      = ((bootActions uel).take j, some msg) := by
    simp [runActions, hj]
  have key : ∀ (l : List Step),
      l.all (fun e => !isReportFatal e) = true → ∀ (b : Bool) (m : String),
      (l ++ [Step.reportFatalError m true,
             Step.handleFatalError b true]).countP
        (fun e => isReportFatal e) = 1 := by
    intro l hl b m
    rw [List.countP_append]
    have h0 : l.countP (fun e => isReportFatal e) = 0 := by
      rw [List.countP_eq_zero]
      intro a ha
      simpa using List.all_eq_true.mp hl a ha
    rw [h0]
    rfl
  have hall : ((bootActions uel).take j).all
      (fun e => !isReportFatal e) = true := by
    rw [List.all_eq_true]
    intro a ha
    have hacts : (bootActions uel).all (fun e => !isReportFatal e) = true := by
      cases uel <;> decide
    exact List.all_eq_true.mp hacts a (List.take_subset j _ ha)
  unfold mainAfterCrashCheck
  dsimp only
  rw [hr]
  dsimp only
  simp only [fatalExitCleanly]
  cases hb : IsUnmodifiedBlessedBuild bac <;>
    exact ⟨rfl, key _ hall _ _⟩

theorem C1_exit_decision_witness :
    (BallisticaMain
        (Env.mk none false true (some (10, "boom"))
          ⟨false, none, none, none⟩ false 0)).outcome
        = (if IsUnmodifiedBlessedBuild ⟨false, none, none, none⟩
            then Outcome.abnormal "Unhandled exception in BallisticaMain(): boom"
            else Outcome.exitOne) ∧
      (BallisticaMain
        (Env.mk none false true (some (10, "boom"))
          ⟨false, none, none, none⟩ false 0)).trace.countP
        (fun e => isReportFatal e) = 1 :=
  C1_exit_decision
    (Env.mk none false true (some (10, "boom"))
      ⟨false, none, none, none⟩ false 0) 10 "boom"
    (by decide) rfl (by decide) rfl

end Ballistica
